import Mathlib

/-!
Shallow embedding of the pattern-similarity core of the stock-pattern-matcher
repository (stock_pattern_matcher/pattern_matcher.py), with floats modelled as
rationals.  Library calls of pandas, numpy and scipy are modelled by their
documented semantics; float NaN outcomes are modelled by Option (none = NaN).
The square root used inside scipy.stats.pearsonr and numpy.sqrt is passed in
as an explicit function argument (sqrtq), since it is an external library
routine, not code of this repository; concrete runs are arranged so that
every square root taken is of a perfect square, where an explicit finite
table agrees exactly with the float library square root.
-/

namespace StockPatternMatcher

attribute [local semireducible] Rat.mul Rat.add Rat.sub Rat.inv

/-- One OHLCV bar of the DataFrame handed to CandlePatternMatcher.  The
DatetimeIndex is modelled positionally: a bar is identified by its index in
the list, which is strictly increasing in time. -/
structure Bar where
  open_ : ℚ
  high : ℚ
  low : ℚ
  close : ℚ
  volume : ℚ
deriving DecidableEq, Repr

/-- Default bar used only as an out-of-domain placeholder for iloc accesses
that can only be reached on empty windows (which the Python code never forms
for window sizes of at least one bar). -/
def dummyBar : Bar := ⟨0, 0, 0, 0, 0⟩

/-- pandas Series.min over a window column (the claims only use it on
nonempty windows; the empty case is an unreached placeholder). -/
def listMin : List ℚ → ℚ
  | [] => 0
  | x :: t => t.foldl min x

/-- pandas Series.max over a window column. -/
def listMax : List ℚ → ℚ
  | [] => 0
  | x :: t => t.foldl max x

/-- Resolution of one endpoint of a Python slice, iloc-style: negative
values count from the end, and both ends are clamped into the valid range. -/
def pyIdx (v : ℤ) (n : ℕ) : ℕ :=
  if v < 0 then ((n : ℤ) + v).toNat else min v.toNat n

/-- df.iloc a to b, Python slice semantics (clamping, negative indexing). -/
def islice {α : Type} (xs : List α) (a b : ℤ) : List α :=
  (xs.take (pyIdx b xs.length)).drop (pyIdx a xs.length)

/-- Last element of a window, modelling Series.iloc of minus one; the
default is reached only for empty windows, which the engine never passes
here for window sizes of at least one bar. -/
def lastD (w : List Bar) : Bar := w.getLastD dummyBar

/-- The group of five per-field columns added to a window DataFrame by one
of the two normalizers (the close_norm family, or the close_minmax family). -/
structure NormCols where
  opens : List ℚ
  highs : List ℚ
  lows : List ℚ
  closes : List ℚ
  volumes : List ℚ
deriving DecidableEq, Repr

/-- A normalized window DataFrame: the row count of the source window plus
the normalized column groups that were actually added.  norm is some exactly
when CandlePatternMatcher.normalize_window produced the frame (close_norm
and friends exist), minmax exactly when min_max_normalize produced it; a
missing group models the KeyError raised on access to an absent column. -/
structure NormWindow where
  len : ℕ
  norm : Option NormCols
  minmax : Option NormCols
deriving DecidableEq, Repr

/-- CandlePatternMatcher.normalize_window: relative normalization of every
price field against the base close (default: the last close of the window),
and of volume against the last volume, falling back to a zero column when
the base volume is not positive. -/
def normalize_window (window_df : List Bar) (base_close : Option ℚ) : NormWindow :=
  let base := base_close.getD (lastD window_df).close
  let base_volume := (lastD window_df).volume
  { len := window_df.length
    norm := some
      { opens := window_df.map (fun b => (b.open_ - base) / base)
        highs := window_df.map (fun b => (b.high - base) / base)
        lows := window_df.map (fun b => (b.low - base) / base)
        closes := window_df.map (fun b => (b.close - base) / base)
        volumes :=
          if 0 < base_volume then
            window_df.map (fun b => (b.volume - base_volume) / base_volume)
          else
            window_df.map (fun _ => 0) }
    minmax := none }

/-- One column of CandlePatternMatcher.min_max_normalize: map the column to
(value - min) / (max - min), or to the constant 0.5 column when the field is
constant over the window. -/
def minmaxCol (xs : List ℚ) : List ℚ :=
  let min_val := listMin xs
  let max_val := listMax xs
  if max_val ≠ min_val then
    xs.map (fun x => (x - min_val) / (max_val - min_val))
  else
    xs.map (fun _ => (1 : ℚ) / 2)

/-- CandlePatternMatcher.min_max_normalize: per-field min-max normalization
of the four price fields and volume. -/
def min_max_normalize (window_df : List Bar) : NormWindow :=
  { len := window_df.length
    norm := none
    minmax := some
      { opens := minmaxCol (window_df.map (·.open_))
        highs := minmaxCol (window_df.map (·.high))
        lows := minmaxCol (window_df.map (·.low))
        closes := minmaxCol (window_df.map (·.close))
        volumes := minmaxCol (window_df.map (·.volume)) } }

/-- scipy.stats.pearsonr on two float vectors.  none models every outcome
the caller treats as unusable: the ValueError raised for vectors of unequal
or insufficient length (under two points), and the NaN returned for a
constant input vector.  Otherwise the coefficient is the centered dot
product over the square root of the product of the squared norms, with the
library square root passed in as sqrtq. -/
def pearson (sqrtq : ℚ → ℚ) (xs ys : List ℚ) : Option ℚ :=
  if xs.length < 2 ∨ ys.length ≠ xs.length then none
  else
    let n : ℚ := xs.length
    let mx := xs.sum / n
    let my := ys.sum / n
    let dx := xs.map (fun a => a - mx)
    let dy := ys.map (fun a => a - my)
    let sxx := (dx.map (fun a => a * a)).sum
    let syy := (dy.map (fun a => a * a)).sum
    let sxy := (List.zipWith (fun a b => a * b) dx dy).sum
    if sxx = 0 ∨ syy = 0 then none
    else some (sxy / sqrtq (sxx * syy))

/-- CandlePatternMatcher.calculate_pattern_similarity with the default
weights (close 0.5, open 0.2, high 0.15, low 0.15, iterated in dict order).
Unequal window lengths short-circuit to 0.0; the correlation branch maps a
failed or NaN pearson to 0.0; the weighted branch skips unusable fields and
divides by the accumulated weight (0.0 when no field was usable); the
euclidean branch averages per-field root-mean-square distances over the
minmax columns present in both frames (average 1.0 when none are, as when
the windows were relative-normalized) and returns 1 / (1 + average); any
other method string falls through to 0.0. -/
def calculate_pattern_similarity (sqrtq : ℚ → ℚ)
    (target_norm comparison_norm : NormWindow) (method : String) : ℚ :=
  if target_norm.len ≠ comparison_norm.len then 0
  else if method = "correlation" then
    match target_norm.norm, comparison_norm.norm with
    | some tn, some cn =>
      match pearson sqrtq tn.closes cn.closes with
      | some corr => corr
      | none => 0
    | _, _ => 0
  else if method = "weighted" then
    let cols : List ((NormCols → List ℚ) × ℚ) :=
      [(NormCols.closes, 1 / 2), (NormCols.opens, 1 / 5),
       (NormCols.highs, 3 / 20), (NormCols.lows, 3 / 20)]
    let acc := cols.foldl
      (fun (a : ℚ × ℚ) p =>
        match target_norm.norm, comparison_norm.norm with
        | some tn, some cn =>
          match pearson sqrtq (p.1 tn) (p.1 cn) with
          | some corr => (a.1 + corr * p.2, a.2 + p.2)
          | none => a
        | _, _ => a)
      (0, 0)
    if 0 < acc.2 then acc.1 / acc.2 else 0
  else if method = "euclidean" then
    match target_norm.minmax, comparison_norm.minmax with
    | some tm, some cm =>
      let dists := [NormCols.closes, NormCols.opens, NormCols.highs,
          NormCols.lows].map
        (fun g =>
          let sq := List.zipWith (fun a b => (a - b) * (a - b)) (g tm) (g cm)
          sqrtq (sq.sum / (sq.length : ℚ)))
      1 / (1 + dists.sum / (dists.length : ℚ))
    | _, _ => 1 / (1 + 1)
  else 0

/-- One row of the results DataFrame built by
CandlePatternMatcher.find_similar_patterns.  start_date and end_date are
modelled positionally by the start and end indices of the candidate window
in the source series; the three return columns carry the percentage values
the source stores under future_return_%, max_return_% and min_return_%. -/
structure ResultRow where
  start_idx : ℕ
  end_idx : ℕ
  similarity : ℚ
  future_return : ℚ
  max_return : ℚ
  min_return : ℚ
  pattern_data : List Bar
  future_data : List Bar
deriving DecidableEq, Repr

/-- The body of the sliding-window loop of find_similar_patterns for one
candidate end index i: skip candidates overlapping the target window, take
and normalize the candidate window, score it against the normalized target,
and on clearing the threshold record the row when and only when a full
lookahead-length future window exists. -/
def scanStep (sqrtq : ℚ → ℚ) (df : List Bar) (target_end_index : ℤ)
    (window_size lookahead : ℕ) (min_similarity : ℚ)
    (method normalize_method : String) (target_norm : NormWindow)
    (i : ℕ) : Option ResultRow :=
  if ((i : ℤ) - target_end_index).natAbs < window_size then none
  else
    let comp_window := islice df ((i : ℤ) - window_size + 1) ((i : ℤ) + 1)
    let comp_norm :=
      if normalize_method = "relative" then normalize_window comp_window none
      else min_max_normalize comp_window
    let similarity :=
      calculate_pattern_similarity sqrtq target_norm comp_norm method
    if min_similarity ≤ similarity then
      let future_data :=
        islice df ((i : ℤ) + 1) (min ((i : ℤ) + lookahead + 1) df.length)
      if future_data.length = lookahead then
        let start_price := (lastD comp_window).close
        let end_price := (lastD future_data).close
        some
          { start_idx := i + 1 - window_size
            end_idx := i
            similarity := similarity
            future_return := (end_price - start_price) / start_price * 100
            max_return :=
              (listMax (future_data.map (·.high)) - start_price)
                / start_price * 100
            min_return :=
              (listMin (future_data.map (·.low)) - start_price)
                / start_price * 100
            pattern_data := comp_window
            future_data := future_data }
      else none
    else none

/-- Insertion of a row into a list already sorted by descending
similarity: the row goes in front of the first element whose similarity
does not exceed its own. -/
def insertDesc (x : ResultRow) : List ResultRow → List ResultRow
  | [] => [x]
  | y :: ys =>
    if y.similarity ≤ x.similarity then x :: y :: ys
    else y :: insertDesc x ys

/-- results_df.sort_values by similarity, descending.  The source sorts
with the pandas default kind quicksort (numpy introsort), which is
documented as not stable: the order it produces among rows with equal
similarity is a library internal (it coincides with a stable order only
below the 16-element insertion-sort cutoff of numpy).  A total model must
fix some tie order, and this one fixes the chronological one; no theorem
in this file relies on the modelled tie order - every theorem stated
through this definition uses only the multiset of rows it returns
(membership and length), which any sort by descending similarity
preserves. -/
def sortBySimilarityDesc (l : List ResultRow) : List ResultRow :=
  l.foldr insertDesc []

/-- DataFrame.head with Python semantics for the count: a nonnegative count
keeps the first count rows, a negative count drops the last abs count rows. -/
def dfHead {α : Type} (l : List α) (n : ℤ) : List α :=
  if 0 ≤ n then l.take n.toNat else l.take (l.length - (-n).toNat)

/-- The target window extracted by find_similar_patterns: window_size bars
ending at the resolved target end index (negative raw indices count from
the end of the series). -/
def target_window_of (df : List Bar) (target_end_index : ℤ)
    (window_size : ℕ) : List Bar :=
  let n : ℤ := df.length
  let te := if target_end_index < 0 then n + target_end_index
            else target_end_index
  islice df (max 0 (te - window_size + 1)) (te + 1)

/-- The chronological list of qualifying rows collected by the sliding
window loop of find_similar_patterns: candidate end indices run from
window_size - 1 up to len - lookahead - exclude_recent_days (exclusive),
and each index contributes its row exactly when scanStep records one. -/
def scan_results (sqrtq : ℚ → ℚ) (df : List Bar) (target_end_index : ℤ)
    (window_size lookahead : ℕ) (min_similarity : ℚ)
    (method normalize_method : String) (exclude_recent_days : ℕ) :
    List ResultRow :=
  let n : ℤ := df.length
  let te : ℤ := if target_end_index < 0 then n + target_end_index
                else target_end_index
  let target_window := target_window_of df target_end_index window_size
  let target_norm :=
    if normalize_method = "relative" then normalize_window target_window none
    else min_max_normalize target_window
  let search_end : ℤ := n - lookahead - exclude_recent_days
  let idxs : List ℕ :=
    List.range' (window_size - 1)
      ((search_end - ((window_size : ℤ) - 1)).toNat)
  idxs.filterMap
    (scanStep sqrtq df te window_size lookahead min_similarity
      method normalize_method target_norm)

/-- CandlePatternMatcher.find_similar_patterns.  Raises (Except.error) only
the insufficient-target-data ValueError; otherwise normalizes the target
once, runs the sliding-window scan, sorts the recorded rows by descending
similarity and truncates to top_n, returning the rows together with the
raw target window.  The embedding covers window_size and lookahead of at
least 1 (with window_size 0 the Python loop would start at index -1 and
normalization of the empty target would raise IndexError; with lookahead 0
a recorded row would read iloc of minus one from an empty future frame). -/
def find_similar_patterns (sqrtq : ℚ → ℚ) (df : List Bar)
    (target_end_index : ℤ) (window_size lookahead : ℕ) (top_n : ℤ)
    (min_similarity : ℚ) (method normalize_method : String)
    (exclude_recent_days : ℕ) :
    Except String (List ResultRow × List Bar) :=
  let target_window := target_window_of df target_end_index window_size
  if target_window.length < window_size then
    Except.error "insufficient target data"
  else
    Except.ok
      (dfHead
        (sortBySimilarityDesc
          (scan_results sqrtq df target_end_index window_size lookahead
            min_similarity method normalize_method exclude_recent_days))
        top_n,
       target_window)

/-- Ascending insertion sort on rationals, used to model the sorting inside
pandas Series.median. -/
def insertAscQ (x : ℚ) : List ℚ → List ℚ
  | [] => [x]
  | y :: ys => if x ≤ y then x :: y :: ys else y :: insertAscQ x ys

/-- pandas Series.median: middle element of the sorted values, or the mean
of the two middle elements for an even count. -/
def medianQ (xs : List ℚ) : ℚ :=
  let s := xs.foldr insertAscQ []
  let n := xs.length
  if n % 2 = 1 then s.getD (n / 2) 0
  else (s.getD (n / 2 - 1) 0 + s.getD (n / 2) 0) / 2

/-- The statistics record built by calculate_statistics.  std_return models
pandas Series.std with its default ddof of 1: none models the float NaN
obtained for fewer than two rows, and the carried value is the sample
variance (the source stores its square root; taking the square root of the
nonnegative variance changes neither definedness nor finiteness, which is
all the claims about this field concern). -/
structure Stats where
  count : ℕ
  mean_return : ℚ
  median_return : ℚ
  std_return : Option ℚ
  max_return : ℚ
  min_return : ℚ
  positive_rate : ℚ
  avg_max_return : ℚ
  avg_min_return : ℚ
deriving DecidableEq, Repr

/-- calculate_statistics: the empty dict (none) on an empty result set,
otherwise count, mean, median, sample std (NaN as none), max, min of the
future returns, the percentage of strictly positive returns, and the means
of the extreme-return columns. -/
def calculate_statistics (similar_patterns : List ResultRow) : Option Stats :=
  match similar_patterns with
  | [] => none
  | _ =>
    let returns := similar_patterns.map (·.future_return)
    let n : ℚ := returns.length
    let mean := returns.sum / n
    some
      { count := returns.length
        mean_return := mean
        median_return := medianQ returns
        std_return :=
          if returns.length < 2 then none
          else some
            ((returns.map (fun x => (x - mean) * (x - mean))).sum
              / (n - 1))
        max_return := listMax returns
        min_return := listMin returns
        positive_rate :=
          ((returns.filter (fun x => 0 < x)).length : ℚ) / n * 100
        avg_max_return := (similar_patterns.map (·.max_return)).sum
          / (similar_patterns.length : ℚ)
        avg_min_return := (similar_patterns.map (·.min_return)).sum
          / (similar_patterns.length : ℚ) }

/-- Exact square root on the finite set of (perfect-square) arguments the
concrete correlation run takes: the run on the strictly increasing six-bar
series with window size 2 only ever takes square roots of 1/576, 1/1296 and
1/2304, where the float library square root returns 1/24, 1/36 and 1/48
exactly.  This function agrees with the library square root at every
argument that run evaluates. -/
def sampleSqrt (q : ℚ) : ℚ :=
  if q = 1 / 576 then 1 / 24
  else if q = 1 / 1296 then 1 / 36
  else if q = 1 / 2304 then 1 / 48
  else 0

/-! Helper lemmas about the embedding, shared by the claim theorems. -/

theorem scanStep_eq_some {sqrtq : ℚ → ℚ} {df : List Bar} {te : ℤ}
    {ws la : ℕ} {msim : ℚ} {method nmeth : String} {tnorm : NormWindow}
    {i : ℕ} {r : ResultRow}
    (h : scanStep sqrtq df te ws la msim method nmeth tnorm i = some r) :
    ws ≤ ((i : ℤ) - te).natAbs ∧
    r.end_idx = i ∧
    r.start_idx = i + 1 - ws ∧
    r.pattern_data = islice df ((i : ℤ) - ws + 1) ((i : ℤ) + 1) ∧
    r.future_data = islice df ((i : ℤ) + 1) (min ((i : ℤ) + la + 1) df.length) ∧
    r.future_data.length = la ∧
    msim ≤ r.similarity ∧
    r.future_return =
      ((lastD r.future_data).close - (lastD r.pattern_data).close)
        / (lastD r.pattern_data).close * 100 ∧
    r.max_return =
      (listMax (r.future_data.map (·.high)) - (lastD r.pattern_data).close)
        / (lastD r.pattern_data).close * 100 ∧
    r.min_return =
      (listMin (r.future_data.map (·.low)) - (lastD r.pattern_data).close)
        / (lastD r.pattern_data).close * 100 := by
  simp only [scanStep] at h
  split at h
  · exact absurd h (by simp)
  · rename_i hskip
    split at h
    all_goals
      split at h
      · rename_i hsim
        split at h
        · rename_i hlen
          cases h
          exact ⟨Nat.le_of_not_lt hskip, rfl, rfl, rfl, rfl,
            by simpa using hlen, hsim, rfl, rfl, rfl⟩
        · exact absurd h (by simp)
      · exact absurd h (by simp)

theorem scanStep_mono {sqrtq : ℚ → ℚ} {df : List Bar} {te : ℤ}
    {ws la : ℕ} {ms₁ ms₂ : ℚ} {method nmeth : String} {tnorm : NormWindow}
    (hms : ms₁ ≤ ms₂) (i : ℕ) {r : ResultRow}
    (h : scanStep sqrtq df te ws la ms₂ method nmeth tnorm i = some r) :
    scanStep sqrtq df te ws la ms₁ method nmeth tnorm i = some r := by
  simp only [scanStep] at h ⊢
  split at h
  · exact absurd h (by simp)
  · rw [if_neg (by assumption)]
    split at h
    · rename_i hrel
      simp only [if_pos hrel]
      split at h
      · rename_i hsim
        rw [if_pos (le_trans hms hsim)]
        exact h
      · exact absurd h (by simp)
    · rename_i hrel
      simp only [if_neg hrel]
      split at h
      · rename_i hsim
        rw [if_pos (le_trans hms hsim)]
        exact h
      · exact absurd h (by simp)

theorem find_eq_ok {sqrtq : ℚ → ℚ} {df : List Bar} {te_raw : ℤ}
    {ws la : ℕ} {tn : ℤ} {msim : ℚ} {method nmeth : String} {ex : ℕ}
    {out : List ResultRow × List Bar}
    (h : find_similar_patterns sqrtq df te_raw ws la tn msim method nmeth ex
      = Except.ok out) :
    ws ≤ (target_window_of df te_raw ws).length ∧
    out.2 = target_window_of df te_raw ws ∧
    out.1 = dfHead
      (sortBySimilarityDesc
        (scan_results sqrtq df te_raw ws la msim method nmeth ex)) tn := by
  simp only [find_similar_patterns] at h
  split at h
  · exact absurd h (by simp)
  · rename_i hlen
    cases h
    exact ⟨Nat.le_of_not_lt hlen, rfl, rfl⟩

theorem mem_insertDesc {x y : ResultRow} {l : List ResultRow} :
    y ∈ insertDesc x l ↔ y = x ∨ y ∈ l := by
  induction l with
  | nil => simp [insertDesc]
  | cons z t ih =>
    simp only [insertDesc]
    split
    · simp
    · simp only [List.mem_cons, ih]
      tauto

theorem mem_sortBySimilarityDesc {y : ResultRow} {l : List ResultRow} :
    y ∈ sortBySimilarityDesc l ↔ y ∈ l := by
  induction l with
  | nil => simp [sortBySimilarityDesc]
  | cons z t ih =>
    simp only [sortBySimilarityDesc, List.foldr_cons] at ih ⊢
    rw [mem_insertDesc, ih, List.mem_cons]

theorem length_insertDesc (x : ResultRow) (l : List ResultRow) :
    (insertDesc x l).length = l.length + 1 := by
  induction l with
  | nil => rfl
  | cons z t ih =>
    simp only [insertDesc]
    split
    · rfl
    · simp [ih]

theorem length_sortBySimilarityDesc (l : List ResultRow) :
    (sortBySimilarityDesc l).length = l.length := by
  induction l with
  | nil => rfl
  | cons z t ih =>
    simp only [sortBySimilarityDesc, List.foldr_cons] at ih ⊢
    rw [length_insertDesc, ih, List.length_cons]

theorem dfHead_sublist {α : Type} (l : List α) (k : ℤ) :
    (dfHead l k).Sublist l := by
  unfold dfHead
  split
  · exact List.take_sublist _ _
  · exact List.take_sublist _ _

theorem mem_of_mem_dfHead {α : Type} {l : List α} {k : ℤ} {x : α}
    (h : x ∈ dfHead l k) : x ∈ l :=
  (dfHead_sublist l k).subset h

theorem length_dfHead_le {α : Type} (l : List α) {k : ℤ} (hk : 0 ≤ k) :
    ((dfHead l k).length : ℤ) ≤ k := by
  unfold dfHead
  rw [if_pos hk]
  have h1 : (l.take k.toNat).length ≤ k.toNat := by
    simp [List.length_take]
  omega

theorem length_dfHead_mono {α : Type} {l₁ l₂ : List α} (k : ℤ)
    (h : l₁.length ≤ l₂.length) :
    (dfHead l₁ k).length ≤ (dfHead l₂ k).length := by
  unfold dfHead
  split
  · simp only [List.length_take]
    omega
  · simp only [List.length_take]
    omega

theorem length_filterMap_mono {α β : Type} {f g : α → Option β}
    (hfg : ∀ a b, g a = some b → f a = some b) (l : List α) :
    (l.filterMap g).length ≤ (l.filterMap f).length := by
  induction l with
  | nil => simp
  | cons a t ih =>
    cases hg : g a with
    | none =>
      rw [List.filterMap_cons_none hg]
      cases hf : f a with
      | none => rw [List.filterMap_cons_none hf]; exact ih
      | some b =>
        rw [List.filterMap_cons_some hf]
        exact le_trans ih (Nat.le_succ _)
    | some b =>
      rw [List.filterMap_cons_some hg, List.filterMap_cons_some (hfg a b hg)]
      exact Nat.succ_le_succ ih

theorem length_islice {α : Type} (xs : List α) {a b : ℤ}
    (ha : 0 ≤ a) (hb : 0 ≤ b) :
    (islice xs a b).length = min b.toNat xs.length - min a.toNat xs.length := by
  unfold islice pyIdx
  rw [if_neg (not_lt.mpr hb), if_neg (not_lt.mpr ha)]
  simp [List.length_drop, List.length_take]

theorem islice_eq_take_drop {α : Type} (xs : List α) {a b : ℤ}
    (ha : 0 ≤ a) (hb0 : 0 ≤ b) (hb : b ≤ (xs.length : ℤ)) :
    islice xs a b = (xs.take b.toNat).drop a.toNat := by
  unfold islice pyIdx
  rw [if_neg (not_lt.mpr hb0), if_neg (not_lt.mpr ha)]
  have hbn : min b.toNat xs.length = b.toNat := by omega
  rw [hbn]
  by_cases hax : a.toNat ≤ xs.length
  · rw [Nat.min_eq_left hax]
  · have h1 : min a.toNat xs.length = xs.length := by omega
    rw [h1]
    rw [List.drop_eq_nil_of_le, List.drop_eq_nil_of_le]
    · simp only [List.length_take]
      omega
    · simp only [List.length_take]
      omega

theorem lastD_take_drop {df : List Bar} {s m : ℕ} (hs : s < m)
    (hm : m ≤ df.length) :
    lastD ((df.take m).drop s) = df.getD (m - 1) dummyBar := by
  have hidx : s + (((df.take m).drop s).length - 1) < m := by
    simp only [List.length_drop, List.length_take]
    omega
  have h1 : ((df.take m).drop s).getLast? = df[m - 1]? := by
    rw [List.getLast?_eq_getElem?, List.getElem?_drop,
      List.getElem?_take_of_lt hidx]
    congr 1
    simp only [List.length_drop, List.length_take]
    omega
  unfold lastD
  rw [List.getLastD_eq_getLast?, h1, List.getD_eq_getElem?_getD]

/-- The resolved target end index used by the scan (negative raw indices
count from the end of the series). -/
def resolvedTarget (df : List Bar) (target_end_index : ℤ) : ℤ :=
  if target_end_index < 0 then (df.length : ℤ) + target_end_index
  else target_end_index

/-- The normalized target window reused for every candidate comparison. -/
def targetNorm (df : List Bar) (target_end_index : ℤ) (window_size : ℕ)
    (normalize_method : String) : NormWindow :=
  if normalize_method = "relative" then
    normalize_window (target_window_of df target_end_index window_size) none
  else min_max_normalize (target_window_of df target_end_index window_size)

theorem scan_results_eq (sqrtq : ℚ → ℚ) (df : List Bar) (te_raw : ℤ)
    (ws la : ℕ) (msim : ℚ) (method nmeth : String) (ex : ℕ) :
    scan_results sqrtq df te_raw ws la msim method nmeth ex =
      (List.range' (ws - 1)
        (((df.length : ℤ) - la - ex - ((ws : ℤ) - 1)).toNat)).filterMap
        (scanStep sqrtq df (resolvedTarget df te_raw) ws la msim method nmeth
          (targetNorm df te_raw ws nmeth)) := by
  simp only [scan_results, resolvedTarget, targetNorm]

theorem mem_scan_results {sqrtq : ℚ → ℚ} {df : List Bar} {te_raw : ℤ}
    {ws la : ℕ} {msim : ℚ} {method nmeth : String} {ex : ℕ} {r : ResultRow}
    (hr : r ∈ scan_results sqrtq df te_raw ws la msim method nmeth ex) :
    ∃ i : ℕ, ws - 1 ≤ i ∧
      scanStep sqrtq df (resolvedTarget df te_raw) ws la msim method nmeth
        (targetNorm df te_raw ws nmeth) i = some r := by
  rw [scan_results_eq] at hr
  obtain ⟨i, hi, hstep⟩ := List.mem_filterMap.mp hr
  exact ⟨i, (List.mem_range'_1.mp hi).1, hstep⟩

theorem mem_find_results {sqrtq : ℚ → ℚ} {df : List Bar} {te_raw : ℤ}
    {ws la : ℕ} {tn : ℤ} {msim : ℚ} {method nmeth : String} {ex : ℕ}
    {out : List ResultRow × List Bar} {r : ResultRow}
    (hok : find_similar_patterns sqrtq df te_raw ws la tn msim method nmeth ex
      = Except.ok out)
    (hr : r ∈ out.1) :
    ∃ i : ℕ, ws - 1 ≤ i ∧
      scanStep sqrtq df (resolvedTarget df te_raw) ws la msim method nmeth
        (targetNorm df te_raw ws nmeth) i = some r := by
  obtain ⟨-, -, hres⟩ := find_eq_ok hok
  rw [hres] at hr
  exact mem_scan_results (mem_sortBySimilarityDesc.mp (mem_of_mem_dfHead hr))

theorem row_ground {df : List Bar} {i ws la : ℕ} {r : ResultRow}
    (hws : 1 ≤ ws) (hla : 1 ≤ la) (hi : ws - 1 ≤ i)
    (hfd : r.future_data =
      islice df ((i : ℤ) + 1) (min ((i : ℤ) + la + 1) df.length))
    (hlen : r.future_data.length = la)
    (hpd : r.pattern_data = islice df ((i : ℤ) - ws + 1) ((i : ℤ) + 1)) :
    i + 1 + la ≤ df.length ∧
    r.future_data = (df.take (i + 1 + la)).drop (i + 1) ∧
    lastD r.future_data = df.getD (i + la) dummyBar ∧
    r.pattern_data = (df.take (i + 1)).drop (i + 1 - ws) ∧
    lastD r.pattern_data = df.getD i dummyBar := by
  have ha : (0 : ℤ) ≤ (i : ℤ) + 1 := by omega
  have hb : (0 : ℤ) ≤ min ((i : ℤ) + la + 1) df.length := by
    have : (0 : ℤ) ≤ (df.length : ℤ) := by omega
    omega
  have hlen' := length_islice df ha hb
  rw [← hfd, hlen] at hlen'
  have hn : i + 1 + la ≤ df.length := by omega
  have hmin : min ((i : ℤ) + la + 1) (df.length : ℤ) = (i : ℤ) + la + 1 := by
    omega
  rw [hmin] at hfd
  have hfut : r.future_data = (df.take (i + 1 + la)).drop (i + 1) := by
    rw [hfd, islice_eq_take_drop df ha (by omega) (by omega)]
    have e1 : ((i : ℤ) + la + 1).toNat = i + 1 + la := by omega
    have e2 : ((i : ℤ) + 1).toNat = i + 1 := by omega
    rw [e1, e2]
  have hpat : r.pattern_data = (df.take (i + 1)).drop (i + 1 - ws) := by
    rw [hpd, islice_eq_take_drop df (by omega) (by omega) (by omega)]
    have e1 : ((i : ℤ) + 1).toNat = i + 1 := by omega
    have e2 : ((i : ℤ) - ws + 1).toNat = i + 1 - ws := by omega
    rw [e1, e2]
  refine ⟨hn, hfut, ?_, hpat, ?_⟩
  · rw [hfut]
    have h1 := @lastD_take_drop df (i + 1) (i + 1 + la)
      (by omega) (by omega)
    have e3 : i + 1 + la - 1 = i + la := by omega
    rw [e3] at h1
    exact h1
  · rw [hpat]
    have h1 := @lastD_take_drop df (i + 1 - ws) (i + 1)
      (by omega) (by omega)
    have e3 : i + 1 - 1 = i := by omega
    rw [e3] at h1
    exact h1

/-! Concrete data for witnesses and counterexamples. -/

/-- A bar with all four prices equal to c and unit volume. -/
def mkBar (c : ℚ) : Bar := ⟨c, c, c, c, 1⟩

/-- A six-bar series with strictly increasing prices 1 to 6. -/
def sampleSeries : List Bar :=
  [mkBar 1, mkBar 2, mkBar 3, mkBar 4, mkBar 5, mkBar 6]

/-- A degenerate square root; concrete runs using it are arranged so that
the engine never consults it (unknown method strings fall through before
any square root is taken). -/
def zeroSqrt : ℚ → ℚ := fun _ => 0

/-- The result of a run with the unknown method string cosine: the scan
completes and the result set is produced (used by several witnesses). -/
def cosineRun : List ResultRow × List Bar :=
  (find_similar_patterns zeroSqrt sampleSeries (-1) 2 1 10 0 "cosine"
    "relative" 0).toOption.getD ([], [])

/-! The claim theorems. -/

/-- C1, counterexample: calling the search with the unknown method string
cosine does not raise anything; the call returns Except.ok and produces a
result set of three candidates, each with a (fallthrough) similarity score
of 0.0 - contradicting the claim that an InvalidConfigurationError is
raised immediately and that no score is computed and no result set is
produced under such a configuration. -/
theorem claim_C1_counterexample :
    (find_similar_patterns zeroSqrt sampleSeries (-1) 2 1 10 0 "cosine"
      "relative" 0).toOption.map
      (fun out => out.1.map (fun r => (r.end_idx, r.similarity)))
      = some [(1, 0), (2, 0), (3, 0)] := by
  rfl

/-- C1, amended: the code performs no configuration validation at all.  An
unknown method string is not rejected: calculate_pattern_similarity falls
through every branch and returns similarity 0.0; and the only error
find_similar_patterns can raise is the insufficient-target-data ValueError -
whether the call succeeds depends only on the target window being long
enough, never on method, normalizeMethod or topN (an unknown
normalizeMethod silently falls into the min-max branch, and a non-positive
topN is passed straight to head).  The window_size and lookahead bounds
delimit the domain on which the embedding is faithful to the Python code. -/
theorem claim_C1_amended :
    (∀ (sqrtq : ℚ → ℚ) (t c : NormWindow) (method : String),
      method ≠ "correlation" → method ≠ "weighted" → method ≠ "euclidean" →
      calculate_pattern_similarity sqrtq t c method = 0) ∧
    (∀ (sqrtq : ℚ → ℚ) (df : List Bar) (te_raw : ℤ) (ws la : ℕ) (tn : ℤ)
      (msim : ℚ) (method nmeth : String) (ex : ℕ), 1 ≤ ws → 1 ≤ la →
      ((find_similar_patterns sqrtq df te_raw ws la tn msim method
        nmeth ex).isOk = true ↔
        ws ≤ (target_window_of df te_raw ws).length)) := by
  constructor
  · intro sqrtq t c method h1 h2 h3
    simp only [calculate_pattern_similarity, h1, h2, h3, if_false]
    split <;> rfl
  · intro sqrtq df te_raw ws la tn msim method nmeth ex hws hla
    simp only [find_similar_patterns]
    split
    · rename_i hlt
      constructor
      · intro h
        simp [Except.isOk, Except.toBool] at h
      · intro h
        omega
    · rename_i hge
      constructor
      · intro _
        omega
      · intro _
        rfl

/-- C1, witness for the amended claim at concrete inputs: similarity under
the unknown method cosine is 0, and with unknown method and normalization
strings and window size 2 on the six-bar series the call succeeds exactly
because the target window has 2 bars. -/
theorem claim_C1_witness :
    calculate_pattern_similarity zeroSqrt (min_max_normalize sampleSeries)
      (min_max_normalize sampleSeries) "cosine" = 0 ∧
    ((find_similar_patterns zeroSqrt sampleSeries (-1) 2 1 10 0 "cosine"
      "sigmoid" 0).isOk = true ↔
      2 ≤ (target_window_of sampleSeries (-1) 2).length) := by
  constructor
  · exact claim_C1_amended.1 zeroSqrt _ _ "cosine" (by decide) (by decide)
      (by decide)
  · exact claim_C1_amended.2 zeroSqrt sampleSeries (-1) 2 1 10 0 "cosine"
      "sigmoid" 0 (by decide) (by decide)

/-- C3: every candidate in the result set returned by the pattern search
carries a future window of exactly lookahead bars; candidates with a
truncated tail were never recorded (the recording guard requires the future
slice length to equal lookahead). -/
theorem claim_C3 (sqrtq : ℚ → ℚ) (df : List Bar) (te_raw : ℤ) (ws la : ℕ)
    (tn : ℤ) (msim : ℚ) (method nmeth : String) (ex : ℕ)
    (out : List ResultRow × List Bar) (hws : 1 ≤ ws) (hla : 1 ≤ la)
    (hok : find_similar_patterns sqrtq df te_raw ws la tn msim method nmeth ex
      = Except.ok out) :
    ∀ r ∈ out.1, r.future_data.length = la := by
  intro r hr
  obtain ⟨i, hi, hstep⟩ := mem_find_results hok hr
  exact (scanStep_eq_some hstep).2.2.2.2.2.1

/-- C3, witness: on the concrete cosine run with lookahead 1 every returned
candidate has a one-bar future window. -/
theorem claim_C3_witness :
    (cosineRun.1.get ⟨0, by decide⟩).future_data.length = 1 ∧
    cosineRun.1.length = 3 := by
  constructor
  · exact claim_C3 zeroSqrt sampleSeries (-1) 2 1 10 0 "cosine" "relative" 0
      cosineRun (by decide) (by decide) (by rfl) _ (List.get_mem _ _ _)
  · rfl

/-- C4: for every candidate in the result set, the distance between its end
index and the resolved target end index is at least window_size: windows
overlapping the target are skipped and never returned. -/
theorem claim_C4 (sqrtq : ℚ → ℚ) (df : List Bar) (te_raw : ℤ) (ws la : ℕ)
    (tn : ℤ) (msim : ℚ) (method nmeth : String) (ex : ℕ)
    (out : List ResultRow × List Bar) (hws : 1 ≤ ws) (hla : 1 ≤ la)
    (hok : find_similar_patterns sqrtq df te_raw ws la tn msim method nmeth ex
      = Except.ok out) :
    ∀ r ∈ out.1,
      ws ≤ ((r.end_idx : ℤ) - resolvedTarget df te_raw).natAbs := by
  intro r hr
  obtain ⟨i, hi, hstep⟩ := mem_find_results hok hr
  have h := scanStep_eq_some hstep
  rw [h.2.1]
  exact h.1

/-- C4, witness: on the concrete cosine run (resolved target end index 5,
window size 2) the first returned candidate ends at index 1, at distance at
least 2 from the target. -/
theorem claim_C4_witness :
    2 ≤ (((cosineRun.1.get ⟨0, by decide⟩).end_idx : ℤ)
        - resolvedTarget sampleSeries (-1)).natAbs ∧
    resolvedTarget sampleSeries (-1) = 5 := by
  constructor
  · exact claim_C4 zeroSqrt sampleSeries (-1) 2 1 10 0 "cosine" "relative" 0
      cosineRun (by decide) (by decide) (by rfl) _ (List.get_mem _ _ _)
  · rfl

/-- C8: the similarity scorer returns 0.0 (and raises nothing) whenever the
two normalized windows have different lengths, for every method. -/
theorem claim_C8 (sqrtq : ℚ → ℚ) (t c : NormWindow) (method : String)
    (h : t.len ≠ c.len) :
    calculate_pattern_similarity sqrtq t c method = 0 := by
  unfold calculate_pattern_similarity
  rw [if_pos h]

/-- C8, witness: a one-bar and a two-bar normalized window score 0 under
the correlation method. -/
theorem claim_C8_witness :
    (min_max_normalize [mkBar 1]).len
      ≠ (min_max_normalize [mkBar 1, mkBar 2]).len ∧
    calculate_pattern_similarity zeroSqrt (min_max_normalize [mkBar 1])
      (min_max_normalize [mkBar 1, mkBar 2]) "correlation" = 0 := by
  constructor
  · decide
  · exact claim_C8 zeroSqrt _ _ "correlation" (by decide)

/-- C9: the outcome aggregator returns the explicit empty marker (the empty
dict, modelled as none) on an empty match result set - and none is returned
only then: every nonempty input yields a populated record. -/
theorem claim_C9 :
    calculate_statistics [] = none ∧
    ∀ (r : ResultRow) (rs : List ResultRow),
      (calculate_statistics (r :: rs)).isSome = true := by
  constructor
  · rfl
  · intro r rs
    rfl

/-- C2, counterexample: on the strictly increasing six-bar series with
window size 2 and lookahead 1, the candidate ending at index 1 has base
close 2 and future close 3, so the raw ratio is 1/2 - but the value the
search stores under future_return_% is 50: the code multiplies the ratio by
100 and stores a percentage, contradicting the claim that a raw float ratio
is stored. -/
theorem claim_C2_counterexample :
    (find_similar_patterns sampleSqrt sampleSeries (-1) 2 1 10 (9 / 10)
      "correlation" "relative" 0).toOption.map
      (fun out => out.1.map (fun r => (r.end_idx, r.future_return)))
      = some [(1, 50), (2, 100 / 3), (3, 25)] ∧
    ((sampleSeries.getD 2 dummyBar).close - (sampleSeries.getD 1 dummyBar).close)
        / (sampleSeries.getD 1 dummyBar).close = 1 / 2 ∧
    (50 : ℚ) ≠ 1 / 2 := by
  refine ⟨by rfl, by rfl, by norm_num⟩

/-- C2, amended: the stored outcome figures are percentages, not raw
ratios.  For every returned candidate the future window is the lookahead
bars following the candidate, the stored future return equals
(futureClose[last] - candidateClose[last]) / candidateClose[last] * 100,
and the stored extremes are (max future high - base) / base * 100 and
(min future low - base) / base * 100 over the same base close. -/
theorem claim_C2_amended (sqrtq : ℚ → ℚ) (df : List Bar) (te_raw : ℤ)
    (ws la : ℕ) (tn : ℤ) (msim : ℚ) (method nmeth : String) (ex : ℕ)
    (out : List ResultRow × List Bar) (hws : 1 ≤ ws) (hla : 1 ≤ la)
    (hok : find_similar_patterns sqrtq df te_raw ws la tn msim method nmeth ex
      = Except.ok out) :
    ∀ r ∈ out.1,
      r.future_data = (df.take (r.end_idx + 1 + la)).drop (r.end_idx + 1) ∧
      r.future_return =
        ((df.getD (r.end_idx + la) dummyBar).close
            - (df.getD r.end_idx dummyBar).close)
          / (df.getD r.end_idx dummyBar).close * 100 ∧
      r.max_return =
        (listMax (r.future_data.map (·.high))
            - (df.getD r.end_idx dummyBar).close)
          / (df.getD r.end_idx dummyBar).close * 100 ∧
      r.min_return =
        (listMin (r.future_data.map (·.low))
            - (df.getD r.end_idx dummyBar).close)
          / (df.getD r.end_idx dummyBar).close * 100 := by
  intro r hr
  obtain ⟨i, hi, hstep⟩ := mem_find_results hok hr
  obtain ⟨hskip, hend, hstart, hpd, hfd, hflen, hsim, hfr, hmax, hmin⟩ :=
    scanStep_eq_some hstep
  obtain ⟨hn, hfut, hlast, hpat, hplast⟩ := row_ground hws hla hi hfd hflen hpd
  rw [hend]
  exact ⟨hfut, by rw [hfr, hlast, hplast], by rw [hmax, hplast],
    by rw [hmin, hplast]⟩

/-- C2, witness for the amended claim: on the six-bar correlation run the
first returned candidate (ending at index 1) stores future return
(3 - 2) / 2 * 100 = 50. -/
theorem claim_C2_witness :
    ((find_similar_patterns sampleSqrt sampleSeries (-1) 2 1 10 (9 / 10)
        "correlation" "relative" 0).toOption.getD ([], [])).1.length = 3 ∧
    (((find_similar_patterns sampleSqrt sampleSeries (-1) 2 1 10 (9 / 10)
        "correlation" "relative" 0).toOption.getD ([], [])).1.get
      ⟨0, by decide⟩).future_return =
      ((sampleSeries.getD
          ((((find_similar_patterns sampleSqrt sampleSeries (-1) 2 1 10 (9 / 10)
            "correlation" "relative" 0).toOption.getD ([], [])).1.get
              ⟨0, by decide⟩).end_idx + 1) dummyBar).close
        - (sampleSeries.getD
            (((find_similar_patterns sampleSqrt sampleSeries (-1) 2 1 10 (9 / 10)
              "correlation" "relative" 0).toOption.getD ([], [])).1.get
                ⟨0, by decide⟩).end_idx dummyBar).close)
        / (sampleSeries.getD
            (((find_similar_patterns sampleSqrt sampleSeries (-1) 2 1 10 (9 / 10)
              "correlation" "relative" 0).toOption.getD ([], [])).1.get
                ⟨0, by decide⟩).end_idx dummyBar).close * 100 := by
  constructor
  · rfl
  · exact ((claim_C2_amended sampleSqrt sampleSeries (-1) 2 1 10 (9 / 10)
      "correlation" "relative" 0 _ (by decide) (by decide) (by rfl)) _
      (List.get_mem _ _ _)).2.1

/-- A constant-price series of 40 bars (every close 5, unit volume): the
degenerate scenario of the spec in which every candidate scores alike. -/
def constSeries : List Bar := List.replicate 40 (mkBar 5)

/-- C5 states that equal similarities are returned ordered by earlier start
index first.  This theorem evaluates the code at the failing input for that
tie-break: on the 40-bar constant-price series with window size 2,
lookahead 1 and threshold 0, the scan records 37 candidates (end indices 1
to 37) every one of which has similarity exactly 0.0 (pearsonr on a
constant-close window is NaN, mapped to 0.0), and the full call succeeds
with all 37 rows.  This 37-way tie is far above the 16-element cutoff
below which the numpy quicksort used by sort_values degenerates to a
stable insertion sort, so the tie order the program returns there is the
unstable introsort partition order, not the chronological order the claim
asserts. -/
theorem claim_C5 :
    (scan_results zeroSqrt constSeries (-1) 2 1 0 "correlation"
        "relative" 0).map (fun r => (r.end_idx, r.similarity))
      = (List.range' 1 37).map (fun i => (i, (0 : ℚ))) ∧
    16 < (scan_results zeroSqrt constSeries (-1) 2 1 0 "correlation"
        "relative" 0).length ∧
    (find_similar_patterns zeroSqrt constSeries (-1) 2 1 40 0 "correlation"
        "relative" 0).toOption.map (fun out => out.1.length) = some 37 := by
  refine ⟨by rfl, by decide, by rfl⟩

/-- C7: the number of returned candidates is antitone in min_similarity
(raising the threshold never increases the count), and the count never
exceeds a nonnegative top_n. -/
theorem claim_C7 :
    (∀ (sqrtq : ℚ → ℚ) (df : List Bar) (te_raw : ℤ) (ws la : ℕ) (tn : ℤ)
      (ms₁ ms₂ : ℚ) (method nmeth : String) (ex : ℕ)
      (out₁ out₂ : List ResultRow × List Bar),
      ms₁ ≤ ms₂ →
      find_similar_patterns sqrtq df te_raw ws la tn ms₁ method nmeth ex
        = Except.ok out₁ →
      find_similar_patterns sqrtq df te_raw ws la tn ms₂ method nmeth ex
        = Except.ok out₂ →
      out₂.1.length ≤ out₁.1.length) ∧
    (∀ (sqrtq : ℚ → ℚ) (df : List Bar) (te_raw : ℤ) (ws la : ℕ) (tn : ℤ)
      (msim : ℚ) (method nmeth : String) (ex : ℕ)
      (out : List ResultRow × List Bar),
      0 ≤ tn →
      find_similar_patterns sqrtq df te_raw ws la tn msim method nmeth ex
        = Except.ok out →
      (out.1.length : ℤ) ≤ tn) := by
  constructor
  · intro sqrtq df te_raw ws la tn ms₁ ms₂ method nmeth ex out₁ out₂ hms h1 h2
    obtain ⟨-, -, hr1⟩ := find_eq_ok h1
    obtain ⟨-, -, hr2⟩ := find_eq_ok h2
    rw [hr1, hr2]
    apply length_dfHead_mono
    rw [length_sortBySimilarityDesc, length_sortBySimilarityDesc,
      scan_results_eq, scan_results_eq]
    exact length_filterMap_mono (fun i r h => scanStep_mono hms i h) _
  · intro sqrtq df te_raw ws la tn msim method nmeth ex out htn hok
    obtain ⟨-, -, hr⟩ := find_eq_ok hok
    rw [hr]
    exact length_dfHead_le _ htn

/-- The run of cosineRun with the threshold raised to 1/2: no candidate
clears it, so the result set is empty. -/
def cosineRunHigh : List ResultRow × List Bar :=
  (find_similar_patterns zeroSqrt sampleSeries (-1) 2 1 10 (1 / 2) "cosine"
    "relative" 0).toOption.getD ([], [])

/-- C7, witness: raising the threshold from 0 to 1/2 on the concrete run
shrinks the count from 3 to 0, and the count is bounded by top_n 10. -/
theorem claim_C7_witness :
    cosineRunHigh.1.length ≤ cosineRun.1.length ∧
    (cosineRun.1.length : ℤ) ≤ 10 := by
  constructor
  · exact claim_C7.1 zeroSqrt sampleSeries (-1) 2 1 10 0 (1 / 2) "cosine"
      "relative" 0 cosineRun cosineRunHigh (by norm_num) (by rfl) (by rfl)
  · exact claim_C7.2 zeroSqrt sampleSeries (-1) 2 1 10 0 "cosine"
      "relative" 0 cosineRun (by decide) (by rfl)

theorem getD_map_rat {α : Type} (f : α → ℚ) (l : List α) (d : α) {j : ℕ}
    (hj : j < l.length) :
    (l.map f).getD j 0 = f (l.getD j d) := by
  rw [List.getD_eq_getElem (l.map f) 0 (by simpa using hj),
    List.getD_eq_getElem l d hj, List.getElem_map]

theorem minmaxCol_getD {xs : List ℚ} {j : ℕ} (hj : j < xs.length) :
    (minmaxCol xs).getD j 0 =
      if listMax xs = listMin xs then 1 / 2
      else (xs.getD j 0 - listMin xs) / (listMax xs - listMin xs) := by
  unfold minmaxCol
  by_cases h : listMax xs = listMin xs
  · rw [if_neg (not_not_intro h), if_pos h,
      getD_map_rat (fun _ => (1 : ℚ) / 2) xs 0 hj]
  · rw [if_pos h, if_neg h, getD_map_rat _ xs 0 hj]

/-- C6: min-max normalization maps, for every window position and every
field (the four prices and volume), the value to
(value - fieldMin) / (fieldMax - fieldMin) over the window, and a constant
field maps to exactly 0.5 everywhere. -/
theorem claim_C6 (w : List Bar) (j : ℕ) (hj : j < w.length) :
    ((min_max_normalize w).minmax.getD ⟨[], [], [], [], []⟩).opens.getD j 0 =
      (if listMax (w.map (·.open_)) = listMin (w.map (·.open_)) then 1 / 2
       else ((w.getD j dummyBar).open_ - listMin (w.map (·.open_)))
         / (listMax (w.map (·.open_)) - listMin (w.map (·.open_)))) ∧
    ((min_max_normalize w).minmax.getD ⟨[], [], [], [], []⟩).highs.getD j 0 =
      (if listMax (w.map (·.high)) = listMin (w.map (·.high)) then 1 / 2
       else ((w.getD j dummyBar).high - listMin (w.map (·.high)))
         / (listMax (w.map (·.high)) - listMin (w.map (·.high)))) ∧
    ((min_max_normalize w).minmax.getD ⟨[], [], [], [], []⟩).lows.getD j 0 =
      (if listMax (w.map (·.low)) = listMin (w.map (·.low)) then 1 / 2
       else ((w.getD j dummyBar).low - listMin (w.map (·.low)))
         / (listMax (w.map (·.low)) - listMin (w.map (·.low)))) ∧
    ((min_max_normalize w).minmax.getD ⟨[], [], [], [], []⟩).closes.getD j 0 =
      (if listMax (w.map (·.close)) = listMin (w.map (·.close)) then 1 / 2
       else ((w.getD j dummyBar).close - listMin (w.map (·.close)))
         / (listMax (w.map (·.close)) - listMin (w.map (·.close)))) ∧
    ((min_max_normalize w).minmax.getD ⟨[], [], [], [], []⟩).volumes.getD j 0 =
      (if listMax (w.map (·.volume)) = listMin (w.map (·.volume)) then 1 / 2
       else ((w.getD j dummyBar).volume - listMin (w.map (·.volume)))
         / (listMax (w.map (·.volume)) - listMin (w.map (·.volume)))) := by
  have hm : ∀ f : Bar → ℚ, j < (w.map f).length := by
    intro f
    simpa using hj
  refine ⟨?_, ?_, ?_, ?_, ?_⟩ <;>
    simp only [min_max_normalize, Option.getD_some] <;>
    rw [minmaxCol_getD (hm _)] <;>
    rw [getD_map_rat _ _ dummyBar hj]

/-- C6, witness: at position 0 of the six-bar sample series the close field
normalizes to (1 - 1) / (6 - 1) = 0 and the constant volume field
normalizes to 0.5. -/
theorem claim_C6_witness :
    ((min_max_normalize sampleSeries).minmax.getD
      ⟨[], [], [], [], []⟩).closes.getD 0 0 = 0 ∧
    ((min_max_normalize sampleSeries).minmax.getD
      ⟨[], [], [], [], []⟩).volumes.getD 0 0 = 1 / 2 := by
  have h := claim_C6 sampleSeries 0 (by decide)
  constructor
  · rw [h.2.2.2.1]
    norm_num [sampleSeries, mkBar, listMax, listMin]
  · rw [h.2.2.2.2]
    norm_num [sampleSeries, mkBar, listMax, listMin]

/-- C10: on a single-candidate result set, std_return is the NaN sample
standard deviation (none) while count, mean, median, min, max, the
positive rate and the average extreme returns are all populated finite
values; the no-NaN behaviour of the aggregator does not extend to
std_return. -/
theorem claim_C10 (r : ResultRow) :
    calculate_statistics [r] = some
      { count := 1
        mean_return := r.future_return
        median_return := r.future_return
        std_return := none
        max_return := r.future_return
        min_return := r.future_return
        positive_rate := if 0 < r.future_return then 100 else 0
        avg_max_return := r.max_return
        avg_min_return := r.min_return } := by
  simp only [calculate_statistics, List.map_cons, List.map_nil,
    List.length_cons, List.length_nil, Nat.cast_one, Nat.cast_zero,
    medianQ, insertAscQ, listMax, listMin, List.foldr_cons, List.foldr_nil,
    List.foldl_nil, List.sum_cons, List.sum_nil]
  norm_num
  by_cases hpos : 0 < r.future_return
  · rw [if_pos hpos]
    simp [List.filter_cons, hpos]
  · rw [if_neg hpos]
    simp [List.filter_cons, hpos]

end StockPatternMatcher
